import Mathlib

/-!
Verification of the EcoLearn Django backend (src/backend/apps/...).

Shallow embedding: each Django model class relevant to the claims is a Lean
structure whose fields follow the model's field declarations; each method or
signal handler is a Lean function translated statement-by-statement from the
Python source.  Machine behaviour that the Python runtime supplies implicitly
is made explicit:

* attribute access on an object that has no such attribute raises
  `AttributeError`; this is modelled by lookup functions returning
  `Except PyErr _` whose name tables are transcribed from the class bodies;
* `FloatField` arithmetic is modelled over `ℚ` (exact rational arithmetic in
  place of IEEE doubles; the claims under test only relate computed fields to
  each other by the very expressions the source uses);
* the database is a list of rows carried explicitly through the functions.
-/

namespace EcoLearn

/-- Python exceptions that the embedded code can raise.  `recursionError`
stands for exhaustion of the model's recursion fuel (Python's
`RecursionError`); every theorem below instantiates the fuel far above the
actual cascade depth of its input, so this case is never the value of an
evaluation in this file. -/
inductive PyErr where
  | attributeError (msg : String)
  | importError (msg : String)
  | fieldError (msg : String)
  | recursionError
deriving DecidableEq, Repr

/-! ## users app: `UserProfile` (src/backend/apps/users/models.py, lines 74-164)

Only the gamification fields (lines 125-130) participate in the claims; the
remaining fields of the class are plain profile data that none of the
embedded methods read or write. -/

structure UserProfile where
  total_points : Nat
  level : Nat
  experience_points : Nat
  streak_days : Nat
  /-- `last_activity_date`: a `DateField` that may be NULL, modelled as an
  absolute day number. -/
  last_activity_date : Option Nat
deriving DecidableEq, Repr

/-- Python attribute lookup for the numeric gamification attributes of
`UserProfile`.  The name table is transcribed from the class body
(users/models.py lines 125-130): the class defines `total_points`, `level`,
`experience_points`, `streak_days` (and non-numeric fields not listed here);
any other name raises `AttributeError`.  In particular the class defines
NO `current_streak` attribute or property. -/
def UserProfile.pygetattr (p : UserProfile) (name : String) : Except PyErr Nat :=
  if name = "total_points" then Except.ok p.total_points
  else if name = "level" then Except.ok p.level
  else if name = "experience_points" then Except.ok p.experience_points
  else if name = "streak_days" then Except.ok p.streak_days
  else Except.error (PyErr.attributeError
    (String.append "UserProfile object has no attribute " name))

/-- Python method lookup on `UserProfile`.  The class (users/models.py lines
74-164) defines exactly one point-related method, `update_level` (modelled
with its signal cascade further below); calling any other method name raises
`AttributeError`.  In particular there is NO `update_total_points` method
anywhere in the users app. -/
def UserProfile.pycallmethod (_p : UserProfile) (name : String) :
    Except PyErr Unit :=
  if name = "update_level" then Except.ok ()
  else Except.error (PyErr.attributeError
    (String.append "UserProfile object has no attribute " name))

/-! ## challenges app: `CarbonFootprint` (src/backend/apps/challenges/models.py,
lines 469-631)

Input fields are `FloatField` / `IntegerField` / `CharField` / `BooleanField`
values; floats are modelled over `ℚ`.  `save` calls `calculate_emissions`
before writing; `generate_recommendations` (lines 633 ff.) only fills the
`recommendations` text list and touches no numeric field, so it is omitted
together with that field. -/

structure CarbonFootprint where
  car_distance : ℚ
  car_efficiency : ℚ
  public_transport_distance : ℚ
  flights_short : ℤ
  flights_long : ℤ
  electricity_usage : ℚ
  heating_gas : ℚ
  renewable_energy : Bool
  meat_consumption : String
  local_food : Bool
  waste_recycling : Bool
  transport_emissions : ℚ
  energy_emissions : ℚ
  lifestyle_emissions : ℚ
  total_emissions : ℚ
  eco_score : ℤ
deriving DecidableEq, Repr

/-- Python `int()` applied to a real number: truncation toward zero. -/
def pyint (q : ℚ) : ℤ :=
  if 0 ≤ q then ⌊q⌋ else ⌈q⌉

/-- `meat_multipliers.get(self.meat_consumption, 600)`
(challenges/models.py lines 607-614). -/
def meat_multiplier (meat_consumption : String) : ℚ :=
  if meat_consumption = "high" then 1000
  else if meat_consumption = "medium" then 600
  else if meat_consumption = "low" then 300
  else if meat_consumption = "none" then 150
  else 600

/-- `CarbonFootprint.calculate_emissions` (challenges/models.py lines
588-631), statement by statement. -/
def CarbonFootprint.calculate_emissions (cf : CarbonFootprint) : CarbonFootprint :=
  let car_emissions := cf.car_distance * 365 * cf.car_efficiency * 2.31 / 100
  let transport_emissions := cf.public_transport_distance * 365 * 0.1
  let flight_emissions := (cf.flights_short : ℚ) * 200 + (cf.flights_long : ℚ) * 1000
  let cf := { cf with
    transport_emissions := car_emissions + transport_emissions + flight_emissions }
  let electricity_emissions := cf.electricity_usage * 12 * 0.5
  let gas_emissions := cf.heating_gas * 12 * 2.0
  let electricity_emissions :=
    if cf.renewable_energy then electricity_emissions * 0.1 else electricity_emissions
  let cf := { cf with energy_emissions := electricity_emissions + gas_emissions }
  let diet_emissions := meat_multiplier cf.meat_consumption
  let diet_emissions := if cf.local_food then diet_emissions * 0.8 else diet_emissions
  let waste_emissions : ℚ := if ¬ cf.waste_recycling then 50 else 20
  let cf := { cf with lifestyle_emissions := diet_emissions + waste_emissions }
  let cf := { cf with
    total_emissions := cf.transport_emissions + cf.energy_emissions + cf.lifestyle_emissions }
  let world_average : ℚ := 4000
  { cf with
    eco_score := max 0 (min 100 (pyint (100 - cf.total_emissions / world_average * 100))) }

/-- `CarbonFootprint.save` (challenges/models.py lines 583-586): recomputes
the derived fields, then persists the row. -/
def CarbonFootprint.save (cf : CarbonFootprint) : CarbonFootprint :=
  cf.calculate_emissions

/-- C8: saving a CarbonFootprint recomputes the derived fields: each
component follows its fixed emission formula, `total_emissions` is the sum of
the three components, and `eco_score` is `100 - total/4000*100` truncated to
an integer and clamped into `[0, 100]`, hence always between 0 and 100. -/
theorem carbon_footprint_save_spec (cf : CarbonFootprint) :
    let r := cf.save
    r.transport_emissions =
        cf.car_distance * 365 * cf.car_efficiency * 2.31 / 100 +
        cf.public_transport_distance * 365 * 0.1 +
        ((cf.flights_short : ℚ) * 200 + (cf.flights_long : ℚ) * 1000) ∧
    r.energy_emissions =
        (if cf.renewable_energy then cf.electricity_usage * 12 * 0.5 * 0.1
         else cf.electricity_usage * 12 * 0.5) + cf.heating_gas * 12 * 2.0 ∧
    r.lifestyle_emissions =
        (if cf.local_food then meat_multiplier cf.meat_consumption * 0.8
         else meat_multiplier cf.meat_consumption) +
        (if ¬ cf.waste_recycling then 50 else 20) ∧
    r.total_emissions =
        r.transport_emissions + r.energy_emissions + r.lifestyle_emissions ∧
    r.eco_score = max 0 (min 100 (pyint (100 - r.total_emissions / 4000 * 100))) ∧
    0 ≤ r.eco_score ∧ r.eco_score ≤ 100 := by
  refine ⟨rfl, rfl, rfl, rfl, rfl, ?_, ?_⟩ <;>
    simp only [CarbonFootprint.save, CarbonFootprint.calculate_emissions] <;>
    omega

/-! ## challenges app: `Challenge.save` (src/backend/apps/challenges/models.py,
lines 183-193) and Django's `slugify`

`django.utils.text.slugify` (non-unicode path) lowercases, removes every
character that is not alphanumeric, underscore, whitespace or hyphen,
collapses runs of hyphens/whitespace into a single hyphen, and strips leading
and trailing hyphens and underscores.  Modelled for ASCII titles. -/

/-- Characters kept by slugify's first substitution `[^\w\s-] -> ""`. -/
def slugKeep (c : Char) : Bool :=
  c.isAlphanum || c = '_' || c.isWhitespace || c = '-'

/-- Is the character part of a `[-\s]+` run? -/
def slugDash (c : Char) : Bool :=
  c = '-' || c.isWhitespace

/-- Second substitution `[-\s]+ -> "-"`: collapse each run of hyphens and
whitespace into a single hyphen. -/
def slugCollapse : List Char → List Char
  | [] => []
  | [c] => if slugDash c then ['-'] else [c]
  | c :: d :: rest =>
    if slugDash c ∧ slugDash d then slugCollapse (d :: rest)
    else (if slugDash c then '-' else c) :: slugCollapse (d :: rest)

/-- Python `str.strip("-_")` on both ends. -/
def slugStrip (cs : List Char) : List Char :=
  ((cs.dropWhile fun c => c = '-' || c = '_').reverse.dropWhile
    fun c => c = '-' || c = '_').reverse

/-- `django.utils.text.slugify` for ASCII input. -/
def slugify (s : String) : String :=
  String.mk (slugStrip (slugCollapse ((s.data.map Char.toLower).filter slugKeep)))

/-- `Challenge.Status` choices (challenges/models.py lines 31-34). -/
inductive ChallengeStatus where
  | draft
  | published
  | archived
deriving DecidableEq, Repr

/-- The fields of `Challenge` read or written by its `save` method
(challenges/models.py lines 36-38 and 183-193).  `published_at` is a nullable
datetime, modelled as an optional timestamp. -/
structure Challenge where
  title : String
  slug : String
  status : ChallengeStatus
  published_at : Option Nat
deriving DecidableEq, Repr

/-- `Challenge.save` (challenges/models.py lines 183-193): fill an empty slug
from the title, set `published_at` on first publication, clear it whenever
the status is not published, then persist.  `now` is `timezone.now()`. -/
def Challenge.save (c : Challenge) (now : Nat) : Challenge :=
  let c := if c.slug = "" then { c with slug := slugify c.title } else c
  if c.status = ChallengeStatus.published ∧ c.published_at = none then
    { c with published_at := some now }
  else if c.status ≠ ChallengeStatus.published then
    { c with published_at := none }
  else c

/-- A draft challenge whose title has no alphanumeric character, with an
empty slug. -/
def punctTitleChallenge : Challenge :=
  { title := "!!!", slug := "", status := ChallengeStatus.draft, published_at := none }

/-- A draft challenge with an ordinary title, an empty slug and a stale
`published_at`. -/
def draftChallenge : Challenge :=
  { title := "Save Water", slug := "", status := ChallengeStatus.draft,
    published_at := some 5 }

/-- C9 counterexample: a challenge whose title contains no alphanumeric
character (here `"!!!"`) saved with an empty slug still has an empty slug
after `save`, because `slugify` deletes every character of the title; so the
claim's "the slug is non-empty after every save" is false. -/
theorem challenge_save_empty_slug_counterexample :
    (Challenge.save punctTitleChallenge 0).slug = "" := by
  decide

/-- C9 (amended): after every `Challenge.save`, an empty slug is replaced by
the slugified title (which can itself be empty when the title has no
alphanumeric character, so the slug is not always non-empty), a non-empty
slug is kept, and `published_at` is non-null iff the status is published: it
is set to the current time when saved published with no `published_at`, kept
unchanged when already set, and reset to `None` on any other status. -/
theorem challenge_save_spec (c : Challenge) (now : Nat) :
    (c.slug = "" → (c.save now).slug = slugify c.title) ∧
    (c.slug ≠ "" → (c.save now).slug = c.slug) ∧
    (c.save now).status = c.status ∧
    (((c.save now).published_at).isSome ↔ c.status = ChallengeStatus.published) ∧
    (c.status = ChallengeStatus.published → c.published_at = none →
      (c.save now).published_at = some now) ∧
    (c.status = ChallengeStatus.published → ∀ t, c.published_at = some t →
      (c.save now).published_at = some t) ∧
    (c.status ≠ ChallengeStatus.published → (c.save now).published_at = none) := by
  unfold Challenge.save
  by_cases hs : c.slug = "" <;>
    by_cases hp : c.status = ChallengeStatus.published <;>
      cases hpa : c.published_at <;>
        simp_all

/-- C9 witness: the amended theorem applied to a concrete draft challenge
with an empty slug and to its hypotheses. -/
theorem challenge_save_spec_witness :
    (Challenge.save draftChallenge 7).slug = slugify "Save Water" ∧
    (Challenge.save draftChallenge 7).published_at = none :=
  ⟨(challenge_save_spec draftChallenge 7).1 rfl,
   (challenge_save_spec draftChallenge 7).2.2.2.2.2.2 (by decide)⟩

/-! ## gamification app: badges, achievements and the point-transaction
ledger (src/backend/apps/gamification/models.py and signals.py)

Saving a model row runs the overridden `save` method; its `super().save()`
performs the INSERT and then dispatches the registered `post_save` receivers
in registration order, before `save` resumes.  For `PointTransaction` the
receivers are, in order (gamification/signals.py): `check_point_milestones`
(line 225), `update_leaderboard_cache` (line 283, cache-key deletion only,
no database effect) and `check_badge_eligibility` (line 319); for
`users.UserProfile` the only receiver is `check_streak_milestones`
(line 254); the `UserBadge` and `Achievement` receivers (lines 301-316) are
notification stubs that `pass`, and no other app registers receivers for
these senders.  Receivers create further rows whose own saves dispatch
recursively; the model makes this recursion total with a fuel parameter
carried by `PointTransaction.save_new`, the sole cycle in the call graph —
the helpers receive the one-level-deeper save function as the explicit
argument `saveTxn`.  An exception anywhere aborts the dispatch and
propagates; each save's INSERT is already committed when its receivers run
(Django only wraps the write itself), so the rows written before the
exception survive — except under an enclosing `transaction.atomic` such as
`get_or_create`'s, modelled in the content section. -/

/-- The criteria JSON of a badge, restricted to the keys that
`Badge.check_criteria` inspects (gamification/models.py lines 102-140):
`lessons_completed`, `quizzes_completed`, `challenges_solved`,
`streak_days`, `difficulty_challenges`.  A key absent from the JSON object is
`none`; other keys are ignored by the method. -/
structure BadgeCriteria where
  lessons_completed : Option Nat
  quizzes_completed : Option Nat
  challenges_solved : Option Nat
  streak_days : Option Nat
  difficulty_challenges : Option (List (String × Nat))
deriving DecidableEq, Repr

/-- The criteria JSON object with no key set. -/
def BadgeCriteria.empty : BadgeCriteria :=
  { lessons_completed := none, quizzes_completed := none, challenges_solved := none,
    streak_days := none, difficulty_challenges := none }

/-- The fields of `Badge` (gamification/models.py lines 12-72) read or
written by the embedded methods.  `name` is declared `unique=True`, so a
badge is identified by its name here. -/
structure Badge where
  name : String
  points_required : Nat
  criteria : BadgeCriteria
  is_active : Bool
  earned_count : Nat
deriving DecidableEq, Repr

/-- The per-user database counts that `Badge.check_criteria` queries:
`user.lesson_completions.count()` and
`user.submissions.filter(status='accepted').values('challenge').distinct()`
counts, total and per challenge difficulty.  A user with no related rows has
zero counts. -/
structure UserCounts where
  lesson_completions_count : Nat
  accepted_challenges_count : Nat
  accepted_challenges_by_difficulty : List (String × Nat)
deriving DecidableEq, Repr

/-- The counts of a user with no related rows. -/
def UserCounts.zero : UserCounts :=
  { lesson_completions_count := 0, accepted_challenges_count := 0,
    accepted_challenges_by_difficulty := [] }

/-- Distinct accepted challenges of a given difficulty for this user. -/
def UserCounts.acceptedWithDifficulty (c : UserCounts) (difficulty : String) : Nat :=
  (c.accepted_challenges_by_difficulty.lookup difficulty).getD 0

/-- The `user` object as `Badge.check_criteria` consumes it: the related
profile and the related-row counts. -/
structure UserState where
  profile : UserProfile
  counts : UserCounts
deriving DecidableEq, Repr

/-- The `difficulty_challenges` for-loop of `check_criteria`
(gamification/models.py lines 133-140): some required per-difficulty count is
unmet. -/
def Badge.difficultyUnmet (b : Badge) (u : UserState) : Bool :=
  match b.criteria.difficulty_challenges with
  | some reqs => reqs.any fun dc => u.counts.acceptedWithDifficulty dc.1 < dc.2
  | none => false

/-- One `if key in criteria: ... if actual < required: return False` block of
`check_criteria`: the key is present and its threshold unmet. -/
def thresholdUnmet (required? : Option Nat) (actual : Nat) : Bool :=
  match required? with
  | some required => decide (actual < required)
  | none => false

/-- `Badge.check_criteria` (gamification/models.py lines 89-142), in source
order: inactive or insufficient total points return `False`; then each
criteria key present is checked in turn, returning `False` on the first
unmet threshold.  Two of the checks crash instead of comparing:
* the `quizzes_completed` branch (line 111) evaluates
  `user.quiz_attempts.filter(is_completed=True)`, and `QuizAttempt`
  (content/models.py lines 403-444) defines no `is_completed` field (its
  fields are `score`, `is_passed`, `completed_at`, ...), so the filter
  raises `FieldError` whenever that key is present and reached;
* the `streak_days` check (line 129) reads `user.profile.current_streak`,
  an attribute `UserProfile` does not define, so reaching it raises
  `AttributeError` — modelled through `UserProfile.pygetattr`. -/
def Badge.check_criteria (b : Badge) (u : UserState) : Except PyErr Bool :=
  if ¬ b.is_active then Except.ok false
  else if u.profile.total_points < b.points_required then Except.ok false
  else if thresholdUnmet b.criteria.lessons_completed u.counts.lesson_completions_count then
    Except.ok false
  else
    match b.criteria.quizzes_completed with
    | some _ =>
      Except.error (PyErr.fieldError
        "Cannot resolve keyword is_completed into field of QuizAttempt")
    | none =>
      if thresholdUnmet b.criteria.challenges_solved u.counts.accepted_challenges_count then
        Except.ok false
      else
        match b.criteria.streak_days with
        | some required =>
          match u.profile.pygetattr "current_streak" with
          | Except.error e => Except.error e
          | Except.ok current =>
            if current < required then Except.ok false
            else if b.difficultyUnmet u then Except.ok false
            else Except.ok true
        | none =>
          if b.difficultyUnmet u then Except.ok false
          else Except.ok true

/-- The `PointTransaction.TransactionType` text choices
(gamification/models.py lines 171-181), as an attribute table: member name to
stored value.  There is no `LESSON_COMPLETION`, `QUIZ_COMPLETION` or
`QUIZ_PASSED` member. -/
def transactionTypeMembers : List (String × String) :=
  [("LESSON_COMPLETED", "lesson_completed"),
   ("QUIZ_COMPLETED", "quiz_completed"),
   ("CHALLENGE_SOLVED", "challenge_solved"),
   ("DAILY_LOGIN", "daily_login"),
   ("STREAK_BONUS", "streak_bonus"),
   ("BADGE_EARNED", "badge_earned"),
   ("ADMIN_ADJUSTMENT", "admin_adjustment"),
   ("REFERRAL_BONUS", "referral_bonus"),
   ("CONTEST_REWARD", "contest_reward"),
   ("PENALTY", "penalty")]

/-- Python attribute access `PointTransaction.TransactionType.<name>`:
a missing enum member raises `AttributeError`. -/
def TransactionType.pygetattr (name : String) : Except PyErr String :=
  match transactionTypeMembers.lookup name with
  | some v => Except.ok v
  | none => Except.error (PyErr.attributeError
      (String.append "TransactionType has no attribute " name))

/-- A `PointTransaction` row (gamification/models.py lines 168-209); users
are identified by id. -/
structure PointTransaction where
  user : Nat
  points : ℤ
  transaction_type : String
  description : String
  reference_id : String
deriving DecidableEq, Repr

/-- An `Achievement` row (gamification/models.py lines 487-529) as the
milestone receivers create them; `unique_together ['user',
'achievement_type', 'reference_id']`.  The `description` text and the row's
UUID are not modelled; the bonus transaction's `reference_id=str(self.id)`
(the row's UUID) is rendered with the achievement's reference string. -/
structure Achievement where
  user : Nat
  achievement_type : String
  title : String
  points_awarded : Nat
  reference_id : String
deriving DecidableEq, Repr

/-- The database state threaded through the gamification operations:
profiles and related-row counts by user id, the badge catalogue, the
`UserBadge` join rows (`unique_together ['user', 'badge']`, identified by
user id and badge name), the achievements, and the point-transaction ledger
(newest first, matching the model's `-created_at` ordering). -/
structure GState where
  profiles : List (Nat × UserProfile)
  stats : List (Nat × UserCounts)
  badges : List Badge
  user_badges : List (Nat × String)
  achievements : List Achievement
  point_transactions : List PointTransaction
deriving DecidableEq, Repr

/-- The `user` object with its related counts, as the badge receivers build
it. -/
def GState.userState (s : GState) (uid : Nat) : Option UserState :=
  (s.profiles.lookup uid).map fun p =>
    { profile := p, counts := (s.stats.lookup uid).getD UserCounts.zero }

/-- Replace the stored profile row of `uid`. -/
def GState.setProfile (s : GState) (uid : Nat) (p : UserProfile) : GState :=
  { s with profiles := s.profiles.map fun pr => if pr.1 = uid then (uid, p) else pr }

/-- `Achievement.objects.filter(user=..., achievement_type=...,
reference_id=...).exists()`. -/
def hasAchievement (s : GState) (uid : Nat) (atype ref : String) : Bool :=
  s.achievements.any fun a =>
    a.user == uid && a.achievement_type == atype && a.reference_id == ref

/-- The type of the one-level-deeper `PointTransaction` save that the
receiver helpers call back into (the only cycle of the call graph). -/
abbrev SaveTxnFn := GState → PointTransaction → GState × Option PyErr

/-- Sequential Python statements under exceptions: run the first write; if
it raised, propagate without running the continuation. -/
def pyAndThen (r : GState × Option PyErr) (k : GState → GState × Option PyErr) :
    GState × Option PyErr :=
  match r with
  | (s1, some e) => (s1, some e)
  | (s1, none) => k s1

/-- `Achievement.save` via `Achievement.objects.create`
(gamification/models.py lines 534-546): `super().save()` inserts the row
(its only `post_save` receiver, `achievement_earned_notification`, is a
`pass`), then a positive `points_awarded` creates a `BADGE_EARNED` ledger
row, whose own save cascades through `saveTxn`. -/
def Achievement.objects_create (saveTxn : SaveTxnFn) (s : GState)
    (a : Achievement) : GState × Option PyErr :=
  let s1 := { s with achievements := a :: s.achievements }
  if a.points_awarded > 0 then
    saveTxn s1
      { user := a.user, points := (a.points_awarded : Int),
        transaction_type := "badge_earned",
        description := String.append "Achievement: " a.title,
        reference_id := a.reference_id }
  else (s1, none)

/-- The point milestones of `check_point_milestones`
(gamification/signals.py line 233). -/
def point_milestones : List Nat :=
  [100, 250, 500, 1000, 2500, 5000, 10000, 25000, 50000, 100000]

/-- The streak milestones of `check_streak_milestones`
(gamification/signals.py line 262). -/
def streak_milestones : List Nat :=
  [3, 7, 14, 30, 60, 100, 365]

/-- The milestone for-loop of `check_point_milestones`
(gamification/signals.py lines 235-251): for each milestone the user's total
points reach without an existing achievement row, create the achievement
(10% of the milestone as bonus points; the `{milestone:,}` thousands
separator of the title text is not reproduced).  An exception from the
nested create aborts the loop and propagates. -/
def milestones_loop (saveTxn : SaveTxnFn) (uid tp : Nat) :
    GState → List Nat → GState × Option PyErr
  | s, [] => (s, none)
  | s, m :: rest =>
    if tp ≥ m ∧ hasAchievement s uid "points_milestone" (toString m) = false then
      pyAndThen
        (Achievement.objects_create saveTxn s
          { user := uid, achievement_type := "points_milestone",
            title := String.append (toString m) " Points Milestone",
            points_awarded := m / 10, reference_id := toString m })
        fun s1 => milestones_loop saveTxn uid tp s1 rest
    else milestones_loop saveTxn uid tp s rest

/-- `check_point_milestones` (gamification/signals.py lines 225-251), the
first `post_save` receiver for `PointTransaction`: on a created row with
positive points, read `instance.user.profile.total_points` and run the
milestone loop. -/
def check_point_milestones (saveTxn : SaveTxnFn) (s : GState)
    (t : PointTransaction) : GState × Option PyErr :=
  if t.points > 0 then
    match s.profiles.lookup t.user with
    | none => (s, some (PyErr.attributeError "User object has no profile"))
    | some profile =>
      milestones_loop saveTxn t.user profile.total_points s point_milestones
  else (s, none)

/-- The bonus ledger row created by `Badge.award_to_user`
(gamification/models.py lines 157-163): `points_required // 10` points of
type `BADGE_EARNED`; the badge's id is modelled by its unique name. -/
def Badge.bonusTransaction (uid : Nat) (b : Badge) : PointTransaction :=
  { user := uid,
    points := ((b.points_required / 10 : Nat) : ℤ),
    transaction_type := "badge_earned",
    description := String.append "Earned badge: " b.name,
    reference_id := b.name }

/-- `Badge.award_to_user` (gamification/models.py lines 144-165):
`UserBadge.objects.get_or_create(user=user, badge=self)` — its atomic wraps
only the `UserBadge` insert, whose sole receiver is a `pass`, so the row
commits; only when a row was created: increment the badge's `earned_count`
and save it (no `Badge` receivers), then create the bonus
`PointTransaction`, whose own save dispatches the receiver cascade through
`saveTxn`.  Returns the state, the `created` flag, and any propagating
exception. -/
def Badge.award_to_user_step (saveTxn : SaveTxnFn) (s : GState) (uid : Nat)
    (b : Badge) : GState × Bool × Option PyErr :=
  if (uid, b.name) ∈ s.user_badges then (s, false, none)
  else
    let s1 := { s with
      user_badges := (uid, b.name) :: s.user_badges,
      badges := s.badges.map fun x =>
        if x.name = b.name then { x with earned_count := x.earned_count + 1 } else x }
    let result := saveTxn s1 (Badge.bonusTransaction uid b)
    (result.1, true, result.2)

/-- The badge for-loop of the `check_badge_eligibility` receiver
(gamification/signals.py lines 331-334): check each available badge's
criteria and award it on success; an exception from `check_criteria` or from
the award's cascade aborts the loop and propagates (the loop ignores
`award_to_user`'s return value). -/
def badge_loop (saveTxn : SaveTxnFn) (uid : Nat) :
    GState → List Badge → GState × Option PyErr
  | s, [] => (s, none)
  | s, b :: rest =>
    match s.userState uid with
    | none => (s, some (PyErr.attributeError "User object has no profile"))
    | some u =>
      match b.check_criteria u with
      | Except.error e => (s, some e)
      | Except.ok true =>
        let r := Badge.award_to_user_step saveTxn s uid b
        pyAndThen (r.1, r.2.2) fun s1 => badge_loop saveTxn uid s1 rest
      | Except.ok false => badge_loop saveTxn uid s rest

/-- `check_badge_eligibility` (gamification/signals.py lines 319-334), the
third `post_save` receiver for `PointTransaction` — not the never-reached
method of the same name on the model (models.py lines 237-246): on a created
row with positive points, snapshot the active badges the user has not earned
and run the badge loop. -/
def check_badge_eligibility (saveTxn : SaveTxnFn) (s : GState)
    (t : PointTransaction) : GState × Option PyErr :=
  if t.points > 0 then
    let earned := (s.user_badges.filter fun p => p.1 == t.user).map fun p => p.2
    let available := s.badges.filter fun b => b.is_active && !(earned.contains b.name)
    badge_loop saveTxn t.user s available
  else (s, none)

/-- The body of `PointTransaction.save` for a new row
(gamification/models.py lines 225-235), with the one-level-deeper save
abstracted as `saveTxn`: `super().save()` inserts the ledger row and
dispatches the three registered receivers in order
(`update_leaderboard_cache`, between the two modelled ones, only deletes
cache keys); then the method resumes with
`self.user.profile.update_total_points()` — a method `UserProfile` does not
define, so the save raises `AttributeError` (through
`UserProfile.pycallmethod`) whenever the dispatch did not already raise, and
its `check_badge_eligibility` method call below (lines 237-246) is never
reached (it would anyway fail first at
`from .tasks import check_user_badges`: the gamification app has no `tasks`
module).  The `Except.ok` branch is unreachable. -/
def save_new_body (saveTxn : SaveTxnFn) (s : GState) (t : PointTransaction) :
    GState × Option PyErr :=
  let s1 := { s with point_transactions := t :: s.point_transactions }
  pyAndThen (check_point_milestones saveTxn s1 t) fun s2 =>
    pyAndThen (check_badge_eligibility saveTxn s2 t) fun s3 =>
      match s3.profiles.lookup t.user with
      | none => (s3, some (PyErr.attributeError "User object has no profile"))
      | some profile =>
        match profile.pycallmethod "update_total_points" with
        | Except.error e => (s3, some e)
        | Except.ok _ => (s3, none)

/-- `PointTransaction.save` for a new row; the fuel bounds the nesting depth
of transaction saves inside the receiver cascade (the loops are structural
and consume none), and every theorem below uses more fuel than its input's
cascade depth. -/
def PointTransaction.save_new : Nat → GState → PointTransaction → GState × Option PyErr
  | 0 => fun s _ => (s, some PyErr.recursionError)
  | fuel + 1 => save_new_body (PointTransaction.save_new fuel)

/-- `Badge.award_to_user` as called from application code: the bonus
transaction's save runs with the given fuel. -/
def Badge.award_to_user (fuel : Nat) (s : GState) (uid : Nat) (b : Badge) :
    GState × Bool × Option PyErr :=
  Badge.award_to_user_step (PointTransaction.save_new fuel) s uid b

/-- The streak-milestone for-loop of `check_streak_milestones`
(gamification/signals.py lines 264-280): 2 points per day of the reached
milestone. -/
def streak_milestones_loop (saveTxn : SaveTxnFn) (uid streak : Nat) :
    GState → List Nat → GState × Option PyErr
  | s, [] => (s, none)
  | s, m :: rest =>
    if streak ≥ m ∧ hasAchievement s uid "streak_milestone" (toString m) = false then
      pyAndThen
        (Achievement.objects_create saveTxn s
          { user := uid, achievement_type := "streak_milestone",
            title := String.append (toString m) " Day Streak",
            points_awarded := m * 2, reference_id := toString m })
        fun s1 => streak_milestones_loop saveTxn uid streak s1 rest
    else streak_milestones_loop saveTxn uid streak s rest

/-- `check_streak_milestones` (gamification/signals.py lines 254-280), the
only `post_save` receiver for `users.UserProfile`; it guards on
`not created`, which holds for every profile save modelled here (all are
updates of an existing row). -/
def check_streak_milestones (saveTxn : SaveTxnFn) (s : GState) (uid : Nat)
    (p : UserProfile) : GState × Option PyErr :=
  if p.streak_days > 0 then
    streak_milestones_loop saveTxn uid p.streak_days s streak_milestones
  else (s, none)

/-- `UserProfile.update_level` (users/models.py lines 157-164) as executed
by the program: `new_level = (self.total_points // 1000) + 1`; if it differs
from `self.level`, write the level with
`self.save(update_fields=['level'])` — whose `post_save` dispatch runs
`check_streak_milestones` — and return `True`; else return `False` without
saving. -/
def UserProfile.update_level (fuel : Nat) (s : GState) (uid : Nat) :
    GState × Except PyErr Bool :=
  match s.profiles.lookup uid with
  | none => (s, Except.error (PyErr.attributeError "User object has no profile"))
  | some p =>
    let new_level := p.total_points / 1000 + 1
    if new_level ≠ p.level then
      let p1 := { p with level := new_level }
      let s1 := s.setProfile uid p1
      match check_streak_milestones (PointTransaction.save_new fuel) s1 uid p1 with
      | (s2, some e) => (s2, Except.error e)
      | (s2, none) => (s2, Except.ok true)
    else (s, Except.ok false)

/-- An active streak badge every active user should earn: no points gate,
only a 7-day streak required. -/
def streakBadge : Badge :=
  { name := "Streak Warrior", points_required := 0,
    criteria := { BadgeCriteria.empty with streak_days := some 7 },
    is_active := true, earned_count := 0 }

/-- An active badge requiring ten completed quizzes. -/
def quizBadge : Badge :=
  { name := "Quiz Master", points_required := 0,
    criteria := { BadgeCriteria.empty with quizzes_completed := some 10 },
    is_active := true, earned_count := 0 }

/-- A user with a 30-day streak recorded on the profile, plenty of points
and a dozen completed lessons. -/
def streakUser : UserState :=
  { profile := { total_points := 500, level := 1, experience_points := 0,
                 streak_days := 30, last_activity_date := some 100 },
    counts := { lesson_completions_count := 12, accepted_challenges_count := 3,
                accepted_challenges_by_difficulty := [("beginner", 3)] } }

/-- C2: evaluating `Badge.check_criteria` at the failing inputs.  For an
active badge whose criteria JSON contains `streak_days`, checked against a
user whose points meet the gate and whose recorded streak (30 days) exceeds
the requirement, line 129 reads the nonexistent `user.profile.current_streak`
and the check raises `AttributeError`; and for an active badge whose
criteria contain `quizzes_completed`, line 111 filters `user.quiz_attempts`
on the nonexistent `is_completed` field and the check raises `FieldError` —
in both cases instead of terminating normally with a boolean as the claim
states. -/
theorem check_criteria_raises_on_streak_and_quiz_criteria :
    streakBadge.check_criteria streakUser =
      Except.error (PyErr.attributeError
        "UserProfile object has no attribute current_streak") ∧
    quizBadge.check_criteria streakUser =
      Except.error (PyErr.fieldError
        "Cannot resolve keyword is_completed into field of QuizAttempt") :=
  ⟨rfl, rfl⟩

/-- A fresh profile, as created by the `create_user_profile` signal with the
model field defaults. -/
def profile0 : UserProfile :=
  { total_points := 0, level := 1, experience_points := 0, streak_days := 0,
    last_activity_date := none }

/-- An active badge requiring one completed lesson and 40 points. -/
def firstStepsBadge : Badge :=
  { name := "First Steps", points_required := 40,
    criteria := { BadgeCriteria.empty with lessons_completed := some 1 },
    is_active := true, earned_count := 0 }

/-- A database with one user (id 1, fresh profile), one badge, no earned
badges, no achievements and an empty ledger. -/
def gstate0 : GState :=
  { profiles := [(1, profile0)], stats := [], badges := [firstStepsBadge],
    user_badges := [], achievements := [], point_transactions := [] }

/-- A lesson-completion ledger row for user 1. -/
def txn0 : PointTransaction :=
  { user := 1, points := 10, transaction_type := "lesson_completed",
    description := "Completed lesson: Recycling 101", reference_id := "7" }

/-- C1: evaluating `PointTransaction.save` on a new ledger row for a user
whose profile exists.  The row is inserted and the dispatched receivers do
run — `check_badge_eligibility` (signals.py line 319) checks the one active
badge against the user's never-updated totals (0 points, below the 40
required) and awards nothing — and then the method itself raises
`AttributeError`: `UserProfile` defines no `update_total_points`, so the
profile's total points are never updated and the method's own badge check
(models.py lines 237-246) is never reached, contrary to the claim's
"updates the profile total and then checks every active badge". -/
theorem point_transaction_save_attribute_error :
    PointTransaction.save_new 8 gstate0 txn0 =
      ({ gstate0 with point_transactions := [txn0] },
       some (PyErr.attributeError
         "UserProfile object has no attribute update_total_points")) := by
  decide

/-! ### The at-most-once shape of `Badge.award_to_user` (C3)

The bonus transaction's receiver cascade can insert further `UserBadge`
rows, but only behind `get_or_create`'s membership check, so no pair is ever
duplicated.  The lemmas below carry that invariant through the cascade:
`PairsExtend s r` says the step from `s` to the state of `r` keeps every
existing (user, badge) pair and preserves their distinctness. -/

def PairsExtend (s : GState) (r : GState × Option PyErr) : Prop :=
  s.user_badges ⊆ r.1.user_badges ∧
    (s.user_badges.Nodup → r.1.user_badges.Nodup)

theorem pairsExtend_keep (s : GState) (e : Option PyErr) : PairsExtend s (s, e) :=
  ⟨fun _ h => h, fun h => h⟩

theorem pairsExtend_trans {s s1 : GState} {e1 : Option PyErr}
    {r : GState × Option PyErr} (h1 : PairsExtend s (s1, e1))
    (h2 : PairsExtend s1 r) : PairsExtend s r :=
  ⟨List.Subset.trans h1.1 h2.1, fun h => h2.2 (h1.2 h)⟩

theorem pyAndThen_pairsExtend {s : GState} {r : GState × Option PyErr}
    {k : GState → GState × Option PyErr} (h1 : PairsExtend s r)
    (h2 : ∀ s1, PairsExtend s1 (k s1)) : PairsExtend s (pyAndThen r k) := by
  rcases r with ⟨s1, e?⟩
  cases e? with
  | none => exact pairsExtend_trans h1 (h2 s1)
  | some e => exact h1

theorem achievement_create_pairsExtend (saveTxn : SaveTxnFn)
    (hf : ∀ s t, PairsExtend s (saveTxn s t)) (s : GState) (a : Achievement) :
    PairsExtend s (Achievement.objects_create saveTxn s a) := by
  unfold Achievement.objects_create
  split
  · exact pairsExtend_trans
      (show PairsExtend s ({ s with achievements := a :: s.achievements }, none) from
        ⟨fun _ h => h, fun h => h⟩)
      (hf _ _)
  · exact ⟨fun _ h => h, fun h => h⟩

theorem milestones_loop_pairsExtend (saveTxn : SaveTxnFn)
    (hf : ∀ s t, PairsExtend s (saveTxn s t)) (uid tp : Nat) :
    ∀ (ms : List Nat) (s : GState),
      PairsExtend s (milestones_loop saveTxn uid tp s ms) := by
  intro ms
  induction ms with
  | nil => intro s; exact pairsExtend_keep _ _
  | cons m rest ih =>
    intro s
    unfold milestones_loop
    split
    · exact pyAndThen_pairsExtend
        (achievement_create_pairsExtend saveTxn hf s _) fun s1 => ih s1
    · exact ih s

theorem streak_milestones_loop_pairsExtend (saveTxn : SaveTxnFn)
    (hf : ∀ s t, PairsExtend s (saveTxn s t)) (uid streak : Nat) :
    ∀ (ms : List Nat) (s : GState),
      PairsExtend s (streak_milestones_loop saveTxn uid streak s ms) := by
  intro ms
  induction ms with
  | nil => intro s; exact pairsExtend_keep _ _
  | cons m rest ih =>
    intro s
    unfold streak_milestones_loop
    split
    · exact pyAndThen_pairsExtend
        (achievement_create_pairsExtend saveTxn hf s _) fun s1 => ih s1
    · exact ih s

theorem award_step_pairsExtend (saveTxn : SaveTxnFn)
    (hf : ∀ s t, PairsExtend s (saveTxn s t)) (s : GState) (uid : Nat)
    (b : Badge) :
    PairsExtend s ((Badge.award_to_user_step saveTxn s uid b).1,
      (Badge.award_to_user_step saveTxn s uid b).2.2) := by
  unfold Badge.award_to_user_step
  by_cases h : (uid, b.name) ∈ s.user_badges
  · rw [if_pos h]
    exact pairsExtend_keep _ _
  · rw [if_neg h]
    exact pairsExtend_trans
      (show PairsExtend s
          ({ s with
              user_badges := (uid, b.name) :: s.user_badges,
              badges := s.badges.map fun x =>
                if x.name = b.name then { x with earned_count := x.earned_count + 1 }
                else x }, none) from
        ⟨List.subset_cons_self _ _, fun hnd => List.nodup_cons.mpr ⟨h, hnd⟩⟩)
      (hf _ _)

theorem badge_loop_pairsExtend (saveTxn : SaveTxnFn)
    (hf : ∀ s t, PairsExtend s (saveTxn s t)) (uid : Nat) :
    ∀ (bs : List Badge) (s : GState),
      PairsExtend s (badge_loop saveTxn uid s bs) := by
  intro bs
  induction bs with
  | nil => intro s; exact pairsExtend_keep _ _
  | cons b rest ih =>
    intro s
    unfold badge_loop
    split
    · exact pairsExtend_keep _ _
    · split
      · exact pairsExtend_keep _ _
      · exact pyAndThen_pairsExtend
          (award_step_pairsExtend saveTxn hf s uid b) fun s1 => ih s1
      · exact ih s

theorem check_point_milestones_pairsExtend (saveTxn : SaveTxnFn)
    (hf : ∀ s t, PairsExtend s (saveTxn s t)) (s : GState)
    (t : PointTransaction) :
    PairsExtend s (check_point_milestones saveTxn s t) := by
  unfold check_point_milestones
  split
  · split
    · exact pairsExtend_keep _ _
    · exact milestones_loop_pairsExtend saveTxn hf _ _ _ _
  · exact pairsExtend_keep _ _

theorem check_badge_eligibility_pairsExtend (saveTxn : SaveTxnFn)
    (hf : ∀ s t, PairsExtend s (saveTxn s t)) (s : GState)
    (t : PointTransaction) :
    PairsExtend s (check_badge_eligibility saveTxn s t) := by
  unfold check_badge_eligibility
  split
  · exact badge_loop_pairsExtend saveTxn hf _ _ _
  · exact pairsExtend_keep _ _

theorem save_new_pairsExtend :
    ∀ (fuel : Nat) (s : GState) (t : PointTransaction),
      PairsExtend s (PointTransaction.save_new fuel s t) := by
  intro fuel
  induction fuel with
  | zero => intro s t; exact pairsExtend_keep _ _
  | succ n ih =>
    intro s t
    show PairsExtend s (save_new_body (PointTransaction.save_new n) s t)
    unfold save_new_body
    refine pyAndThen_pairsExtend (pairsExtend_trans
      (show PairsExtend s
          ({ s with point_transactions := t :: s.point_transactions }, none) from
        ⟨fun _ h => h, fun h => h⟩)
      (check_point_milestones_pairsExtend _ ih _ _)) fun s2 => ?_
    refine pyAndThen_pairsExtend
      (check_badge_eligibility_pairsExtend _ ih _ _) fun s3 => ?_
    split
    · exact pairsExtend_keep _ _
    · split
      · exact pairsExtend_keep _ _
      · exact pairsExtend_keep _ _

/-- In a duplicate-free row list, a present row is counted exactly once. -/
theorem count_pair_eq_one {a : Nat × String} :
    ∀ {l : List (Nat × String)}, l.Nodup → a ∈ l → l.count a = 1 := by
  intro l
  induction l with
  | nil => intro _ h; cases h
  | cons b rest ih =>
    intro hnd hmem
    rw [List.count_cons]
    rcases List.mem_cons.mp hmem with rfl | hmem2
    · have hzero : rest.count a = 0 :=
        List.count_eq_zero.mpr (List.nodup_cons.mp hnd).1
      simp [hzero]
    · have hne : a ≠ b := by
        intro hab
        exact absurd (hab ▸ hmem2) (List.nodup_cons.mp hnd).1
      have hcount := ih (List.nodup_cons.mp hnd).2 hmem2
      simp [hcount, Ne.symm hne]

/-- C3 (amended): `Badge.award_to_user` never duplicates a (user, badge)
pair.  For a user who already holds the badge it creates nothing, changes
nothing and returns `created = False`; a first call returns
`created = True` and inserts that pair exactly once — though the bonus
transaction's receiver cascade may create further rows for other badges and
milestones, it re-awards nothing, so starting from distinct pairs the pair
count of (user, badge) in the resulting table is exactly one. -/
theorem award_to_user_pair_at_most_once (fuel : Nat) (s : GState) (uid : Nat)
    (b : Badge) :
    ((uid, b.name) ∈ s.user_badges →
      Badge.award_to_user fuel s uid b = (s, false, none)) ∧
    ((uid, b.name) ∉ s.user_badges → s.user_badges.Nodup →
      (Badge.award_to_user fuel s uid b).2.1 = true ∧
      (uid, b.name) ∈ (Badge.award_to_user fuel s uid b).1.user_badges ∧
      (Badge.award_to_user fuel s uid b).1.user_badges.Nodup ∧
      (Badge.award_to_user fuel s uid b).1.user_badges.count (uid, b.name) = 1) := by
  constructor
  · intro h
    unfold Badge.award_to_user Badge.award_to_user_step
    rw [if_pos h]
  · intro h hnd
    unfold Badge.award_to_user Badge.award_to_user_step
    rw [if_neg h]
    have hpe := save_new_pairsExtend fuel
      { s with
        user_badges := (uid, b.name) :: s.user_badges,
        badges := s.badges.map fun x =>
          if x.name = b.name then { x with earned_count := x.earned_count + 1 }
          else x }
      (Badge.bonusTransaction uid b)
    have hmem := hpe.1 (List.mem_cons_self _ _)
    have hnd2 := hpe.2 (List.nodup_cons.mpr ⟨h, hnd⟩)
    exact ⟨rfl, hmem, hnd2, count_pair_eq_one hnd2 hmem⟩

/-- C3 witness: awarding the badge to user 1, who does not yet hold it, in
the concrete one-user database, by the theorem applied at that input. -/
theorem award_to_user_pair_at_most_once_witness :
    (1, firstStepsBadge.name) ∉ gstate0.user_badges ∧
    (Badge.award_to_user 8 gstate0 1 firstStepsBadge).2.1 = true ∧
    (Badge.award_to_user 8 gstate0 1 firstStepsBadge).1.user_badges.count
      (1, firstStepsBadge.name) = 1 := by
  have h := (award_to_user_pair_at_most_once 8 gstate0 1 firstStepsBadge).2
    (by decide) (by decide)
  exact ⟨by decide, h.1, h.2.2.2⟩

/-- A profile with 100 total points and no streak. -/
def profileRich : UserProfile :=
  { total_points := 100, level := 1, experience_points := 0, streak_days := 0,
    last_activity_date := none }

/-- Two active badges with no custom criteria, a 50-point gate and a 5-point
bonus each. -/
def badgeX : Badge :=
  { name := "Eco Starter", points_required := 50,
    criteria := BadgeCriteria.empty, is_active := true, earned_count := 0 }

def badgeY : Badge :=
  { name := "Eco Hero", points_required := 50,
    criteria := BadgeCriteria.empty, is_active := true, earned_count := 0 }

/-- A database where user 1 (100 points, no achievements) is eligible for
both badges and holds neither. -/
def gstateTwo : GState :=
  { profiles := [(1, profileRich)], stats := [], badges := [badgeX, badgeY],
    user_badges := [], achievements := [], point_transactions := [] }

/-- C3 counterexample: the first call of `award_to_user` for badge X at
`gstateTwo` does not create "exactly one UserBadge ... exactly one bonus
PointTransaction": the bonus transaction's save dispatches
`check_point_milestones` (which creates the 100-point milestone achievement
and its 10-point ledger row) and, inside that row's own dispatch,
`check_badge_eligibility` awards badge Y too — so the call commits two
`UserBadge` rows and three ledger rows before the deepest save raises the
missing-`update_total_points` `AttributeError`. -/
theorem award_to_user_cascade_counterexample :
    (Badge.award_to_user 8 gstateTwo 1 badgeX).2.1 = true ∧
    (Badge.award_to_user 8 gstateTwo 1 badgeX).1.user_badges =
      [(1, "Eco Hero"), (1, "Eco Starter")] ∧
    (Badge.award_to_user 8 gstateTwo 1 badgeX).1.point_transactions.length = 3 ∧
    (Badge.award_to_user 8 gstateTwo 1 badgeX).1.achievements.length = 1 ∧
    (Badge.award_to_user 8 gstateTwo 1 badgeX).2.2 =
      some (PyErr.attributeError
        "UserProfile object has no attribute update_total_points") := by
  decide

/-- A profile whose stored level is stale (50 points but level 5) with a
3-day streak. -/
def staleProfile : UserProfile :=
  { total_points := 50, level := 5, experience_points := 0, streak_days := 3,
    last_activity_date := none }

/-- A database with only that user and no badges or achievements. -/
def gstateStale : GState :=
  { profiles := [(1, staleProfile)], stats := [], badges := [],
    user_badges := [], achievements := [], point_transactions := [] }

/-- The achievement and ledger row the streak cascade commits. -/
def streak3Achievement : Achievement :=
  { user := 1, achievement_type := "streak_milestone", title := "3 Day Streak",
    points_awarded := 6, reference_id := "3" }

def streak3Transaction : PointTransaction :=
  { user := 1, points := 6, transaction_type := "badge_earned",
    description := "Achievement: 3 Day Streak", reference_id := "3" }

/-- C10: evaluating `update_level` at the failing input.  The level does
change (5 to 1), so the profile is saved — and the save's `post_save`
receiver `check_streak_milestones` creates the 3-day-streak achievement,
whose bonus transaction's save raises the missing-`update_total_points`
`AttributeError` out of `update_level`: the call raises instead of returning
a boolean, with the level write, the achievement and the ledger row
committed, contrary to the claim's unconditional return-value
biconditional. -/
theorem update_level_streak_cascade_attribute_error :
    UserProfile.update_level 8 gstateStale 1 =
      ({ profiles := [(1, { staleProfile with level := 1 })], stats := [],
         badges := [], user_badges := [],
         achievements := [streak3Achievement],
         point_transactions := [streak3Transaction] },
       Except.error (PyErr.attributeError
         "UserProfile object has no attribute update_total_points")) := by
  rfl

/-! ## content app: lesson completion (src/backend/apps/content/models.py,
views.py and signals.py) -/

/-- The fields of `Lesson` (content/models.py lines 55-145) that the
embedded handlers read. -/
structure Lesson where
  id : Nat
  title : String
  points_reward : Nat
  difficulty_level : String
deriving DecidableEq, Repr

/-- `award_lesson_completion_points` (content/signals.py lines 10-36), the
content app's `post_save` receiver for newly created `LessonCompletion`
rows.  Its first statement builds a `PointTransaction` whose
`transaction_type` argument is
`PointTransaction.TransactionType.LESSON_COMPLETION` — a member the enum
does not define (it has `LESSON_COMPLETED`), so argument evaluation raises
`AttributeError` before any row is created, and everything below — the
transaction save with its cascade, and the streak update (lines 25-36: bump
the streak when the last activity was exactly yesterday, reset it to 1
otherwise, stamp today, and save the profile, which would dispatch
`check_streak_milestones`) — is never executed.  (Were the member present,
the `create` call would next fail on the nonexistent `related_lesson`
field.)  The `Except.ok` branch transcribes that unreachable remainder. -/
def content_award_lesson_completion_points (fuel : Nat) (s : GState)
    (uid : Nat) (lesson : Lesson) (today : Nat) : GState × Option PyErr :=
  match TransactionType.pygetattr "LESSON_COMPLETION" with
  | Except.error e => (s, some e)
  | Except.ok tt =>
    let t : PointTransaction :=
      { user := uid, points := (lesson.points_reward : Int),
        transaction_type := tt,
        description := String.append "Completed lesson: " lesson.title,
        reference_id := "" }
    pyAndThen (PointTransaction.save_new fuel s t) fun s1 =>
      match s1.profiles.lookup uid with
      | none => (s1, some (PyErr.attributeError "User object has no profile"))
      | some profile =>
        if profile.last_activity_date ≠ some today then
          let p1 :=
            if profile.last_activity_date = some (today - 1) then
              { profile with streak_days := profile.streak_days + 1 }
            else
              { profile with streak_days := 1 }
          let p1 := { p1 with last_activity_date := some today }
          check_streak_milestones (PointTransaction.save_new fuel)
            (s1.setProfile uid p1) uid p1
        else (s1, none)

/-- C4: evaluating the content app's lesson-completion receiver.  For every
fuel, database state, user, lesson and day — including a user whose last
activity was exactly yesterday — the handler raises `AttributeError` on
`TransactionType.LESSON_COMPLETION` and leaves the state untouched: no
lesson-completion `PointTransaction` is created and the streak fields are
never updated, contrary to the claim.  (The gamification app registers a
second receiver for the same signal that would award different points —
10 plus a difficulty bonus — so even its transaction would not match the
claim's "exactly one lesson-completion transaction", and its save crashes
as in C1.) -/
theorem content_lesson_signal_attribute_error (fuel : Nat) (s : GState)
    (uid : Nat) (lesson : Lesson) (today : Nat) :
    content_award_lesson_completion_points fuel s uid lesson today =
      (s, some (PyErr.attributeError
        "TransactionType has no attribute LESSON_COMPLETION")) := by
  rfl

/-- A `LessonCompletion` row (content/models.py lines 373-397); declared
`unique_together ['user', 'lesson']`. -/
structure LessonCompletion where
  user : Nat
  lesson : Nat
  completed_at : Nat
  time_spent : Nat
deriving DecidableEq, Repr

/-- The responses of the `complete` action. -/
inductive CompleteResponse where
  | unauthorized
  | completedNew (points_earned : Nat)
  | alreadyCompleted (completed_at : Nat)
deriving DecidableEq, Repr

/-- `LessonViewSet.complete` (content/views.py lines 120-147): 401 for an
unauthenticated user; otherwise
`LessonCompletion.objects.get_or_create(user=..., lesson=..., defaults=...)`
and a message depending on `created` (`ts` is
`request.data.get('time_spent', 0)`).  When no row matches, `get_or_create`
wraps its `create` in `transaction.atomic`, and the `post_save` dispatch
runs inside that block; both registered receivers end in `AttributeError` —
the content one (modelled here first) raises before any write, and the
gamification twin would raise out of its transaction save's cascade — so
under either registration order (settings.py is not in the repository) the
atomic rolls back the INSERT together with any receiver writes and the
exception propagates: a first invocation leaves both the completion table
and the gamification state unchanged and produces no success response. -/
def LessonViewSet.complete (fuel : Nat) (rows : List LessonCompletion)
    (s : GState) (auth : Bool) (uid : Nat) (lesson : Lesson)
    (ts now today : Nat) :
    List LessonCompletion × GState × Except PyErr CompleteResponse :=
  if ¬ auth then (rows, s, Except.ok CompleteResponse.unauthorized)
  else
    match rows.find? fun r => r.user == uid && r.lesson == lesson.id with
    | some r => (rows, s, Except.ok (CompleteResponse.alreadyCompleted r.completed_at))
    | none =>
      let inserted := rows ++
        [{ user := uid, lesson := lesson.id, completed_at := now,
           time_spent := ts }]
      match content_award_lesson_completion_points fuel s uid lesson today with
      | (_, some e) => (rows, s, Except.error e)
      | (s1, none) =>
        (inserted, s1, Except.ok (CompleteResponse.completedNew lesson.points_reward))

/-- A concrete lesson. -/
def lesson0 : Lesson :=
  { id := 7, title := "Recycling 101", points_reward := 10,
    difficulty_level := "beginner" }

/-- C5: evaluating `complete` at the failing input: an authenticated user
completing a lesson they have not completed, on an empty completion table.
The `post_save` receivers raise `AttributeError` inside `get_or_create`'s
`transaction.atomic`, the INSERT is rolled back, and the request fails: no
`LessonCompletion` row is ever created, contrary to the claim's "the first
invocation creates exactly one row" (the at-most-once invariant itself is
preserved only because nothing is ever inserted, and a repeat invocation on
an existing row indeed changes nothing). -/
theorem lesson_complete_first_invocation_rolls_back :
    LessonViewSet.complete 8 [] gstate0 true 1 lesson0 30 100 500 =
      ([], gstate0, Except.error (PyErr.attributeError
        "TransactionType has no attribute LESSON_COMPLETION")) := by
  rfl

/-! ## content app: quiz answer scoring (src/backend/apps/content/models.py
lines 296-483 and signals.py lines 89-127) -/

/-- `Question.QuestionType` choices (content/models.py lines 299-305). -/
inductive QuestionType where
  | multiple_choice
  | true_false
  | short_answer
  | essay
  | matching
  | fill_blank
deriving DecidableEq, Repr

/-- An `Answer` choice row (content/models.py lines 349-370). -/
structure Answer where
  answer_text : String
  is_correct : Bool
deriving DecidableEq, Repr

/-- The fields of `Question` the scoring handler reads (content/models.py
lines 296-346): its type, its points, and its answer choices. -/
structure Question where
  question_type : QuestionType
  points : Nat
  answers : List Answer
deriving DecidableEq, Repr

/-- A `UserAnswer` row (content/models.py lines 447-483).  `is_correct`
defaults to `False` and `points_earned` to `0`. -/
structure UserAnswer where
  selected_answer : Option Answer
  text_answer : String
  is_correct : Bool
  points_earned : Nat
deriving DecidableEq, Repr

/-- Python `str.strip()` with no argument: remove leading and trailing
whitespace. -/
def stripWhitespace (cs : List Char) : List Char :=
  ((cs.dropWhile Char.isWhitespace).reverse.dropWhile Char.isWhitespace).reverse

/-- Python `.lower().strip()` applied to a text answer (ASCII model). -/
def pyNormalize (s : String) : String :=
  String.mk (stripWhitespace (s.data.map Char.toLower))

/-- `calculate_answer_correctness` (content/signals.py lines 89-127), the
`post_save` receiver for newly created `UserAnswer` rows.  Multiple-choice
and true/false answers (two `elif` branches with identical bodies in the
source) copy `selected_answer.is_correct` and award the question's points
when correct; short-answer and fill-in-the-blank answers compare the
normalised text against each correct answer choice, stopping at the first
match; every other question type is left untouched.  The handler then
persists `is_correct` and `points_earned` with a queryset `update`. -/
def calculate_answer_correctness (q : Question) (ua : UserAnswer) : UserAnswer :=
  match q.question_type with
  | QuestionType.multiple_choice | QuestionType.true_false =>
    (match ua.selected_answer with
     | some a =>
       let ua1 := { ua with is_correct := a.is_correct }
       if ua1.is_correct then { ua1 with points_earned := q.points } else ua1
     | none => ua)
  | QuestionType.short_answer | QuestionType.fill_blank =>
    let correct_answers := q.answers.filter fun a => a.is_correct
    let user_answer_lower := pyNormalize ua.text_answer
    (match correct_answers.find? fun a => pyNormalize a.answer_text == user_answer_lower with
     | some _ => { ua with is_correct := true, points_earned := q.points }
     | none => ua)
  | QuestionType.essay | QuestionType.matching => ua

/-- C6: for a newly created `UserAnswer` starting from the model defaults
(`is_correct = False`, `points_earned = 0`), the scoring handler sets: for
multiple-choice and true/false questions with a selected answer,
`is_correct` to the selected choice's flag and `points_earned` to the
question's points when correct and 0 otherwise; for short-answer and
fill-in-the-blank questions, `is_correct = True` with the question's points
iff the normalised text answer equals the normalised text of some correct
answer choice; essay and matching answers are never marked correct. -/
theorem calculate_answer_correctness_spec (q : Question) (ua : UserAnswer)
    (hC : ua.is_correct = false) (hP : ua.points_earned = 0) :
    ((q.question_type = QuestionType.multiple_choice ∨
      q.question_type = QuestionType.true_false) →
      ∀ a, ua.selected_answer = some a →
        (calculate_answer_correctness q ua).is_correct = a.is_correct ∧
        (calculate_answer_correctness q ua).points_earned =
          (if a.is_correct then q.points else 0)) ∧
    ((q.question_type = QuestionType.short_answer ∨
      q.question_type = QuestionType.fill_blank) →
      (((calculate_answer_correctness q ua).is_correct = true ↔
        ∃ a ∈ q.answers, a.is_correct = true ∧
          pyNormalize a.answer_text = pyNormalize ua.text_answer) ∧
       ((calculate_answer_correctness q ua).is_correct = true →
         (calculate_answer_correctness q ua).points_earned = q.points) ∧
       ((calculate_answer_correctness q ua).is_correct = false →
         (calculate_answer_correctness q ua).points_earned = 0))) ∧
    ((q.question_type = QuestionType.essay ∨
      q.question_type = QuestionType.matching) →
      (calculate_answer_correctness q ua).is_correct = false) := by
  refine ⟨fun ht a ha => ?_, fun ht => ?_, fun ht => ?_⟩
  · have hbody :
        calculate_answer_correctness q ua =
          (let ua1 := { ua with is_correct := a.is_correct }
           if ua1.is_correct then { ua1 with points_earned := q.points } else ua1) := by
      rcases ht with h | h <;> simp [calculate_answer_correctness, h, ha]
    rw [hbody]
    cases hcorr : a.is_correct <;> simp [hcorr, hP]
  · have hbody :
        calculate_answer_correctness q ua =
          (match (q.answers.filter fun a => a.is_correct).find?
              (fun a => pyNormalize a.answer_text == pyNormalize ua.text_answer) with
           | some _ => { ua with is_correct := true, points_earned := q.points }
           | none => ua) := by
      rcases ht with h | h <;> simp [calculate_answer_correctness, h]
    cases hfind : (q.answers.filter fun a => a.is_correct).find?
        (fun a => pyNormalize a.answer_text == pyNormalize ua.text_answer) with
    | some a =>
      have heval : calculate_answer_correctness q ua =
          { ua with is_correct := true, points_earned := q.points } := by
        rw [hbody, hfind]
      have hmemf := List.mem_filter.mp (List.mem_of_find?_eq_some hfind)
      have hpred := List.find?_some hfind
      simp only [beq_iff_eq] at hpred
      rw [heval]
      exact ⟨iff_of_true rfl ⟨a, hmemf.1, hmemf.2, hpred⟩, fun _ => rfl,
        fun hfl => Bool.noConfusion hfl⟩
    | none =>
      have heval : calculate_answer_correctness q ua = ua := by
        rw [hbody, hfind]
      rw [heval]
      refine ⟨?_, fun htt => Bool.noConfusion (hC ▸ htt), fun _ => hP⟩
      refine iff_of_false (fun htt => Bool.noConfusion (hC ▸ htt)) ?_
      rintro ⟨a, hmem, hcorr, heq⟩
      have := List.find?_eq_none.mp hfind a (List.mem_filter.mpr ⟨hmem, hcorr⟩)
      simp [heq] at this
  · rcases ht with h | h <;>
      simp [calculate_answer_correctness, h, hC]

/-- A short-answer question with one correct answer choice. -/
def capitalQuestion : Question :=
  { question_type := QuestionType.short_answer, points := 3,
    answers := [{ answer_text := " Paris ", is_correct := true },
                { answer_text := "London", is_correct := false }] }

/-- A freshly created text answer with the model defaults. -/
def capitalUserAnswer : UserAnswer :=
  { selected_answer := none, text_answer := "PARIS", is_correct := false,
    points_earned := 0 }

/-- C6 witness: scoring the concrete short-answer row marks it correct with
the question's points, by the theorem applied at that input. -/
theorem calculate_answer_correctness_spec_witness :
    (calculate_answer_correctness capitalQuestion capitalUserAnswer).is_correct = true ∧
    (calculate_answer_correctness capitalQuestion capitalUserAnswer).points_earned = 3 := by
  have h := (calculate_answer_correctness_spec capitalQuestion capitalUserAnswer
    rfl rfl).2.1 (Or.inl rfl)
  have hcorr : (calculate_answer_correctness capitalQuestion capitalUserAnswer).is_correct
      = true := by
    refine h.1.mpr ?_
    refine ⟨{ answer_text := " Paris ", is_correct := true }, ?_, rfl, ?_⟩
    · simp [capitalQuestion]
    · decide
  exact ⟨hcorr, h.2.1 hcorr⟩

/-! ## gamification app: leaderboards (gamification/models.py lines 283-484)

`_generate_leaderboard_data(limit)` evaluates, per leaderboard type, an
ordered and `[:limit]`-sliced queryset `users` and builds the entry list
with a comprehension `[{...'rank': i + 1...} for i, user in
enumerate(users) if <keep>]`.  The queryset rows are the environment here: a
`LeaderboardRow` carries the user columns and the per-type annotations
(`Sum`/`Count` aggregates; a `Sum` over no rows is SQL NULL, hence
`Option`).  The six comprehensions share one shape and differ only in the
score expression, the filter condition and the metric label, factored below
into `leaderboardScore` / `leaderboardKeep` / `leaderboardMetric` with one
line per source branch. -/

inductive LeaderboardType where
  | global_points
  | weekly_points
  | monthly_points
  | challenges_solved
  | lessons_completed
  | current_streak
  | class_points
deriving DecidableEq, Repr

/-- One row of the ordered, sliced queryset a comprehension iterates. -/
structure LeaderboardRow where
  user_id : Nat
  username : String
  total_points : Nat
  weekly_points : Option Int
  monthly_points : Option Int
  challenges_solved : Nat
  lessons_completed : Nat
deriving DecidableEq, Repr

/-- One entry dict of the generated leaderboard data. -/
structure LeaderboardEntry where
  rank : Nat
  user_id : Nat
  score : Int
  metric : String
deriving DecidableEq, Repr

/-- Python `enumerate`, starting at index `i`. -/
def pyEnumerateFrom (i : Nat) : List α → List (Nat × α)
  | [] => []
  | a :: rest => (i, a) :: pyEnumerateFrom (i + 1) rest

/-- Python `enumerate`. -/
def pyEnumerate (l : List α) : List (Nat × α) :=
  pyEnumerateFrom 0 l

/-- Python truthiness of a nullable aggregate (`if user.weekly_points`):
NULL and 0 are falsy. -/
def truthyOptInt (o : Option Int) : Bool :=
  match o with
  | none => false
  | some v => v != 0

/-- The comprehension filter of each branch: `global_points` has none;
`weekly_points` / `monthly_points` keep truthy sums; `challenges_solved` /
`lessons_completed` keep positive counts (the `current_streak` and
`class_points` lines are never consulted, see
`generate_leaderboard_data`). -/
def leaderboardKeep (lt : LeaderboardType) (r : LeaderboardRow) : Bool :=
  match lt with
  | LeaderboardType.global_points => true
  | LeaderboardType.weekly_points => truthyOptInt r.weekly_points
  | LeaderboardType.monthly_points => truthyOptInt r.monthly_points
  | LeaderboardType.challenges_solved => decide (0 < r.challenges_solved)
  | LeaderboardType.lessons_completed => decide (0 < r.lessons_completed)
  | LeaderboardType.current_streak => true
  | LeaderboardType.class_points => true

/-- The `'score'` expression of each branch (`user.weekly_points or 0`
defaults a NULL sum to 0). -/
def leaderboardScore (lt : LeaderboardType) (r : LeaderboardRow) : Int :=
  match lt with
  | LeaderboardType.global_points => (r.total_points : Int)
  | LeaderboardType.weekly_points => r.weekly_points.getD 0
  | LeaderboardType.monthly_points => r.monthly_points.getD 0
  | LeaderboardType.challenges_solved => (r.challenges_solved : Int)
  | LeaderboardType.lessons_completed => (r.lessons_completed : Int)
  | LeaderboardType.current_streak => 0
  | LeaderboardType.class_points => 0

/-- The `'metric'` label of each branch. -/
def leaderboardMetric (lt : LeaderboardType) : String :=
  match lt with
  | LeaderboardType.global_points => "points"
  | LeaderboardType.weekly_points => "weekly_points"
  | LeaderboardType.monthly_points => "monthly_points"
  | LeaderboardType.challenges_solved => "challenges_solved"
  | LeaderboardType.lessons_completed => "lessons_completed"
  | LeaderboardType.current_streak => "current_streak"
  | LeaderboardType.class_points => ""

/-- `Leaderboard._generate_leaderboard_data` (gamification/models.py lines
360-478) over the already-ordered, `[:limit]`-sliced queryset rows.  The
`current_streak` branch orders by `'-profile__current_streak'`: `UserProfile`
has no `current_streak` field (its field is `streak_days`), so evaluating
that queryset raises `FieldError`.  The final `else` branch (reached by
`class_points`) returns `[]`.  Every other branch runs its comprehension:
enumerate, keep the rows passing the branch filter, and emit an entry whose
`rank` is `i + 1` for the pre-filter index `i`. -/
def generate_leaderboard_data (lt : LeaderboardType)
    (users : List LeaderboardRow) : Except PyErr (List LeaderboardEntry) :=
  match lt with
  | LeaderboardType.current_streak =>
    Except.error (PyErr.fieldError
      "Cannot resolve keyword current_streak into field of UserProfile")
  | LeaderboardType.class_points => Except.ok []
  | _ =>
    Except.ok
      (((pyEnumerate users).filter fun p => leaderboardKeep lt p.2).map fun p =>
        { rank := p.1 + 1, user_id := p.2.user_id,
          score := leaderboardScore lt p.2, metric := leaderboardMetric lt })

/-- The claim's rank property: each entry's rank equals its 1-based position
in the returned list. -/
def ranksConsecutive (l : List LeaderboardEntry) : Bool :=
  (pyEnumerate l).all fun p => p.2.rank == p.1 + 1

theorem pyEnumerateFrom_length (i : Nat) (l : List α) :
    (pyEnumerateFrom i l).length = l.length := by
  induction l generalizing i with
  | nil => rfl
  | cons a rest ih => simp [pyEnumerateFrom, ih]

theorem pyEnumerateFrom_fst_bounds (i : Nat) (l : List α) :
    ∀ p ∈ pyEnumerateFrom i l, i ≤ p.1 ∧ p.1 < i + l.length := by
  induction l generalizing i with
  | nil => simp [pyEnumerateFrom]
  | cons a rest ih =>
    intro p hp
    simp only [pyEnumerateFrom, List.mem_cons] at hp
    rcases hp with rfl | hp
    · simp
    · have := ih (i + 1) p hp
      constructor
      · omega
      · simp only [List.length_cons]
        omega

theorem pyEnumerateFrom_filter_map_snd (keep : α → Bool) (i : Nat) (l : List α) :
    (((pyEnumerateFrom i l).filter fun p => keep p.2).map fun p => p.2) =
      l.filter keep := by
  induction l generalizing i with
  | nil => rfl
  | cons a rest ih =>
    simp only [pyEnumerateFrom, List.filter_cons]
    cases hk : keep a <;> simp [hk, ih]

theorem pyEnumerateFrom_filter_fst_pairwise (keep : α → Bool) (l : List α) (i : Nat) :
    List.Pairwise (· < ·)
      (((pyEnumerateFrom i l).filter fun p => keep p.2).map fun p => p.1) := by
  induction l generalizing i with
  | nil => simp [pyEnumerateFrom]
  | cons a rest ih =>
    simp only [pyEnumerateFrom, List.filter_cons]
    cases hk : keep a
    · simpa [hk] using ih (i + 1)
    · simp only [hk, List.map_cons]
      refine List.Pairwise.cons ?_ (ih (i + 1))
      intro b hb
      obtain ⟨p, hp, rfl⟩ := List.mem_map.mp hb
      have hpmem := List.mem_of_mem_filter hp
      have hge := (pyEnumerateFrom_fst_bounds (i + 1) rest p hpmem).1
      exact Nat.lt_of_lt_of_le (Nat.lt_succ_self i) hge

/-- C7 (amended): whenever `_generate_leaderboard_data` returns an entry
list — every type except `current_streak`, whose query orders by the
nonexistent `profile__current_streak` field and raises `FieldError` — and
the queryset rows are sliced to `limit` and ordered with non-increasing
scores among the kept rows (the `order_by` guarantee), the list has at most
`limit` entries, its scores are non-increasing, and its ranks are strictly
increasing, each between 1 and the pre-filter row count; ranks equal one
plus the entry's index in the pre-filter queryset, so they need not be
consecutive in the returned list. -/
theorem generate_leaderboard_data_spec (lt : LeaderboardType)
    (users : List LeaderboardRow) (limit : Nat)
    (hlen : users.length ≤ limit)
    (hsorted : List.Pairwise
      (fun a b => leaderboardScore lt a ≥ leaderboardScore lt b)
      (users.filter (leaderboardKeep lt))) :
    (lt = LeaderboardType.current_streak →
      generate_leaderboard_data lt users =
        Except.error (PyErr.fieldError
          "Cannot resolve keyword current_streak into field of UserProfile")) ∧
    (lt ≠ LeaderboardType.current_streak → ∀ l,
      generate_leaderboard_data lt users = Except.ok l →
      l.length ≤ limit ∧
      List.Pairwise (· ≥ ·) (l.map fun e => e.score) ∧
      List.Pairwise (· < ·) (l.map fun e => e.rank) ∧
      ∀ e ∈ l, 1 ≤ e.rank ∧ e.rank ≤ users.length) := by
  have hmain : ∀ l,
      (Except.ok
        (((pyEnumerate users).filter fun p => leaderboardKeep lt p.2).map fun p =>
          ({ rank := p.1 + 1, user_id := p.2.user_id,
             score := leaderboardScore lt p.2,
             metric := leaderboardMetric lt } : LeaderboardEntry))
        : Except PyErr (List LeaderboardEntry)) = Except.ok l →
      l.length ≤ limit ∧
      List.Pairwise (· ≥ ·) (l.map fun e => e.score) ∧
      List.Pairwise (· < ·) (l.map fun e => e.rank) ∧
      ∀ e ∈ l, 1 ≤ e.rank ∧ e.rank ≤ users.length := by
    intro l hl
    injection hl with hl
    subst hl
    refine ⟨?_, ?_, ?_, ?_⟩
    · calc (((pyEnumerate users).filter fun p => leaderboardKeep lt p.2).map fun p =>
            ({ rank := p.1 + 1, user_id := p.2.user_id,
               score := leaderboardScore lt p.2,
               metric := leaderboardMetric lt } : LeaderboardEntry)).length
          = ((pyEnumerate users).filter fun p => leaderboardKeep lt p.2).length :=
            List.length_map _ _
        _ ≤ (pyEnumerate users).length := List.length_filter_le _ _
        _ = users.length := pyEnumerateFrom_length 0 users
        _ ≤ limit := hlen
    · have hmap :
          ((((pyEnumerate users).filter fun p => leaderboardKeep lt p.2).map fun p =>
            ({ rank := p.1 + 1, user_id := p.2.user_id,
               score := leaderboardScore lt p.2,
               metric := leaderboardMetric lt } : LeaderboardEntry)).map
                fun e => e.score) =
            (users.filter (leaderboardKeep lt)).map (leaderboardScore lt) := by
        rw [List.map_map, ← pyEnumerateFrom_filter_map_snd (leaderboardKeep lt) 0 users,
          List.map_map]
        rfl
      rw [hmap]
      exact hsorted.map _ fun a b h => h
    · have hmap :
          ((((pyEnumerate users).filter fun p => leaderboardKeep lt p.2).map fun p =>
            ({ rank := p.1 + 1, user_id := p.2.user_id,
               score := leaderboardScore lt p.2,
               metric := leaderboardMetric lt } : LeaderboardEntry)).map
                fun e => e.rank) =
            (((pyEnumerate users).filter fun p => leaderboardKeep lt p.2).map
              fun p => p.1).map fun n => n + 1 := by
        rw [List.map_map, List.map_map]
        rfl
      rw [hmap]
      exact (pyEnumerateFrom_filter_fst_pairwise (leaderboardKeep lt) users 0).map _
        fun a b h => by omega
    · intro e he
      obtain ⟨p, hp, rfl⟩ := List.mem_map.mp he
      have hpmem := List.mem_of_mem_filter hp
      have hb := pyEnumerateFrom_fst_bounds 0 users p hpmem
      refine ⟨Nat.le_add_left 1 p.1, ?_⟩
      show p.1 + 1 ≤ users.length
      omega
  cases lt with
  | current_streak => exact ⟨fun _ => rfl, fun h => absurd rfl h⟩
  | class_points =>
    refine ⟨(fun h => by cases h), fun _ l hl => ?_⟩
    injection hl with hl
    subst hl
    simp
  | global_points => exact ⟨(fun h => by cases h), fun _ => hmain⟩
  | weekly_points => exact ⟨(fun h => by cases h), fun _ => hmain⟩
  | monthly_points => exact ⟨(fun h => by cases h), fun _ => hmain⟩
  | challenges_solved => exact ⟨(fun h => by cases h), fun _ => hmain⟩
  | lessons_completed => exact ⟨(fun h => by cases h), fun _ => hmain⟩

/-- A user whose point transactions of the last week sum to 10. -/
def rowA : LeaderboardRow :=
  { user_id := 1, username := "a", total_points := 0, weekly_points := some 10,
    monthly_points := none, challenges_solved := 0, lessons_completed := 0 }

/-- A user whose point transactions of the last week sum to 0 (for example
one +5 and one -5 transaction), a falsy score. -/
def rowB : LeaderboardRow :=
  { user_id := 2, username := "b", total_points := 0, weekly_points := some 0,
    monthly_points := none, challenges_solved := 0, lessons_completed := 0 }

/-- A user whose point transactions of the last week sum to -5. -/
def rowC : LeaderboardRow :=
  { user_id := 3, username := "c", total_points := 0, weekly_points := some (-5),
    monthly_points := none, challenges_solved := 0, lessons_completed := 0 }

/-- The weekly queryset rows in descending `-weekly_points` order, exactly as
`order_by` returns them. -/
def weeklyRows : List LeaderboardRow :=
  [rowA, rowB, rowC]

/-- The two entries the weekly comprehension emits for `weeklyRows`. -/
def gapEntryA : LeaderboardEntry :=
  { rank := 1, user_id := 1, score := 10, metric := "weekly_points" }

def gapEntryC : LeaderboardEntry :=
  { rank := 3, user_id := 3, score := -5, metric := "weekly_points" }

/-- C7 counterexample: three users with weekly sums 10, 0 and -5, presented
in the exact descending order `order_by('-weekly_points')` yields (and within
the limit 3).  The comprehension drops the falsy middle row after `enumerate`
has assigned indices, so the returned entries carry ranks 1 and 3: the second
entry's rank is 3, not its 1-based position 2, refuting the claim that ranks
are consecutive `1..n`.  Additionally the `current_streak` branch returns no
list at all: its query orders by the nonexistent `profile__current_streak`
field and raises `FieldError`. -/
theorem generate_leaderboard_rank_gap_counterexample :
    List.Pairwise
      (fun a b => leaderboardScore LeaderboardType.weekly_points a ≥
        leaderboardScore LeaderboardType.weekly_points b) weeklyRows ∧
    weeklyRows.length ≤ 3 ∧
    generate_leaderboard_data LeaderboardType.weekly_points weeklyRows =
      Except.ok [gapEntryA, gapEntryC] ∧
    ranksConsecutive [gapEntryA, gapEntryC] = false ∧
    generate_leaderboard_data LeaderboardType.current_streak weeklyRows =
      Except.error (PyErr.fieldError
        "Cannot resolve keyword current_streak into field of UserProfile") := by
  exact ⟨by decide, by decide, rfl, by decide, rfl⟩

/-- C7 witness: the amended theorem applied to the concrete weekly rows with
limit 3, discharging the slicing and ordering hypotheses there. -/
theorem generate_leaderboard_data_spec_witness :
    generate_leaderboard_data LeaderboardType.weekly_points weeklyRows =
      Except.ok [gapEntryA, gapEntryC] ∧
    List.Pairwise (· ≥ ·) ([gapEntryA, gapEntryC].map fun e => e.score) ∧
    List.Pairwise (· < ·) ([gapEntryA, gapEntryC].map fun e => e.rank) := by
  have h := (generate_leaderboard_data_spec LeaderboardType.weekly_points weeklyRows 3
    (by decide) (by decide)).2 (by decide) [gapEntryA, gapEntryC] rfl
  exact ⟨rfl, h.2.1, h.2.2.1⟩

end EcoLearn
